import Mathlib

/-!
Verification of the elastic-shard-exporter collector (src/collector/collector.go).

The Go collector is shallowly embedded: the HTTP world is abstracted as an
`HttpOutcome` handed to the fetch functions, machine integers are `Int`,
float gauge values are `ℚ`, Go's `map[string]IndexSettings` is a list of
key/value pairs, and the observable behaviour of `Collect` / `Describe`
(lock operations, HTTP requests, metric emissions) is an explicit event list.
-/

namespace ElasticShardExporter

/-! ## Data model (types from collector.go) -/

structure CollectorConfig where
  ESURL : String
  ESUser : String
  ESPass : String
  SSLEnable : Bool
  SSLSkipVerify : Bool
deriving DecidableEq

structure ClusterHealthResponse where
  ClusterName : String
  Status : String
  TimedOut : Bool
  NumberOfNodes : Int
  NumberOfDataNodes : Int
  ActivePrimaryShards : Int
  ActiveShards : Int
  RelocatingShards : Int
  InitializingShards : Int
  UnassignedShards : Int
  DelayedUnassignedShards : Int
  NumberOfPendingTasks : Int
  NumberOfInFlightFetch : Int
  TaskMaxWaitingInQueueMillis : Int
  ActiveShardsPercentAsNumber : ℚ
deriving DecidableEq

structure IndexSettingsIndex where
  NumberOfReplicas : String
  NumberOfShards : String
deriving DecidableEq

structure IndexSettingsSettings where
  Index : IndexSettingsIndex
deriving DecidableEq

structure IndexSettings where
  Settings : IndexSettingsSettings
deriving DecidableEq

/-- Go's `map[string]IndexSettings`, as a list of (index name, settings). -/
abbrev IndexSettingsResponse := List (String × IndexSettings)

/-- A `prometheus.Desc`: fully-qualified name, help text, variable labels. -/
structure Desc where
  fqName : String
  help : String
  variableLabels : List String
deriving DecidableEq

structure ShardCollector where
  config : CollectorConfig
  shardRelocationMetric : Desc
  shardReplicaMetric : Desc
  scrapeErrorMetric : Desc
  scrapeDurationMetric : Desc
deriving DecidableEq

inductive ValueType where
  | gauge
  | counter
  | untyped
deriving DecidableEq

/-- One emitted const metric sample (`prometheus.MustNewConstMetric`). -/
structure Metric where
  desc : Desc
  vtype : ValueType
  value : ℚ
  labelValues : List String
deriving DecidableEq

/-- An outgoing HTTP request as the Go code builds it. -/
structure HttpRequest where
  method : String
  url : String
  headers : List (String × String)
  basicAuth : Option (String × String)
deriving DecidableEq

/-- What the HTTP world does to one request: construction failure
(`http.NewRequest` error), transport failure (`client.Do` error), or a
response with a status code, raw body, and the result of JSON-decoding the
body into `α` (`none` = decode error). -/
inductive HttpOutcome (α : Type) where
  | reqError
  | transportError
  | response (statusCode : Nat) (body : String) (decoded : Option α)

/-- Observable events of the collector: lock operations, HTTP requests
sent, descriptor emissions (`Describe`), metric emissions (`Collect`). -/
inductive ShardEvent where
  | acquireLock
  | releaseLock
  | httpGet (req : HttpRequest)
  | emitDesc (d : Desc)
  | emit (m : Metric)
deriving DecidableEq

/-! ## Collector construction -/

/-- The `namespace` constant of collector.go. -/
def namespace' : String := "trendyol_nosql"

/-- `prometheus.BuildFQName`: joins the non-empty parts with `_`. -/
def buildFQName (ns subsystem name : String) : String :=
  String.intercalate "_" (([ns, subsystem, name]).filter (fun s => s != ""))

def shardRelocationDesc : Desc :=
  ⟨"trendyol_nosql_shard_relocation", "Elasticsearch shard relocation status", ["status"]⟩

def shardReplicaDesc : Desc :=
  ⟨"trendyol_nosql_shard_replica", "Elasticsearch shard replica count", ["count"]⟩

def scrapeErrorDesc : Desc :=
  ⟨buildFQName namespace' "exporter" "scrape_error", "Scrape error status", []⟩

def scrapeDurationDesc : Desc :=
  ⟨buildFQName namespace' "exporter" "scrape_duration_seconds",
    "Duration of the scrape in seconds", []⟩

/-- `NewShardCollector` (the HTTP client/transport setup carries no
collector-visible state in the embedding; construction never fails). -/
def NewShardCollector (config : CollectorConfig) : ShardCollector :=
  { config := config
    shardRelocationMetric := shardRelocationDesc
    shardReplicaMetric := shardReplicaDesc
    scrapeErrorMetric := scrapeErrorDesc
    scrapeDurationMetric := scrapeDurationDesc }

/-! ## Upstream client -/

/-- `req.SetBasicAuth(user, pass)`. -/
def setBasicAuth (req : HttpRequest) (user pass : String) : HttpRequest :=
  { req with basicAuth := some (user, pass) }

/-- The conditional `SetBasicAuth` call both fetchers perform. -/
def applyAuth (cfg : CollectorConfig) (req : HttpRequest) : HttpRequest :=
  if cfg.ESUser ≠ "" ∧ cfg.ESPass ≠ "" then setBasicAuth req cfg.ESUser cfg.ESPass else req

/-- The request `fetchClusterHealth` constructs. -/
def buildHealthRequest (cfg : CollectorConfig) : HttpRequest :=
  let req : HttpRequest :=
    { method := "GET", url := cfg.ESURL ++ "/_cluster/health", headers := [], basicAuth := none }
  let req := applyAuth cfg req
  { req with headers := req.headers ++ [("Accept", "application/json")] }

/-- The request `fetchMaxReplicaCount` constructs. -/
def buildSettingsRequest (cfg : CollectorConfig) : HttpRequest :=
  let req : HttpRequest :=
    { method := "GET", url := cfg.ESURL ++ "/_settings", headers := [], basicAuth := none }
  let req := applyAuth cfg req
  { req with headers := req.headers ++ [("Accept", "application/json")] }

/-- Whether the request was actually sent (`client.Do` reached): false only
when `http.NewRequest` itself failed. -/
def requestSent : HttpOutcome α → Bool
  | .reqError => false
  | _ => true

/-- `fetchClusterHealth`: error on construction failure, transport failure,
non-200 status, or decode failure; otherwise the decoded response. -/
def fetchClusterHealth (_cfg : CollectorConfig) :
    HttpOutcome ClusterHealthResponse → Except String ClusterHealthResponse
  | .reqError => .error "failed to create request"
  | .transportError => .error "failed to fetch cluster health"
  | .response code _body decoded =>
    if code ≠ 200 then .error "unexpected status code"
    else
      match decoded with
      | none => .error "failed to decode response"
      | some health => .ok health

/-! ## Replica-count derivation (`fmt.Sscanf(s, "%d", &replicas)`) -/

/-- Value of a list of decimal digit characters. -/
def decimalValue (ds : List Char) : Nat :=
  ds.foldl (fun a c => 10 * a + (c.toNat - 48)) 0

/-- Go `fmt.Sscanf(s, "%d", &x)` as the collector uses it: skip leading
blanks, optional sign, then a non-empty run of decimal digits whose value
must fit a 64-bit `int`; `none` when nothing is assigned to `x` (scan or
range error), in which case the caller's zero-initialised variable keeps 0.
Trailing non-digit input after the number is ignored by `Sscanf`. -/
def scanInt (s : String) : Option Int :=
  let cs := s.data.dropWhile (fun c => c == ' ' || c == '\t')
  match cs with
  | [] => none
  | c :: rest =>
    if c = '\n' ∨ c = '\r' then none
    else
      let signed : Int × List Char :=
        if c = '-' then (-1, rest) else if c = '+' then (1, rest) else (1, c :: rest)
      let ds := signed.2.takeWhile (fun ch => ch.isDigit)
      if ds = [] then none
      else
        let v : Int := signed.1 * (decimalValue ds : Int)
        if -(2 ^ 63) ≤ v ∧ v ≤ 2 ^ 63 - 1 then some v else none

/-- The loop at the end of `fetchMaxReplicaCount`: running maximum starting
at 0 over the per-entry scanned replica counts (0 when the scan assigns
nothing). -/
def deriveMaxReplicas (settings : IndexSettingsResponse) : Int :=
  settings.foldl
    (fun maxReplicas entry =>
      let replicas := (scanInt entry.2.Settings.Index.NumberOfReplicas).getD 0
      if replicas > maxReplicas then replicas else maxReplicas)
    0

/-- Modelled from the spec's words for comparison: `maxReplicas = max over
all indices of parseInt(number_of_replicas)`, unparsable entries contribute
0, the running maximum starts at 0. -/
def maxReplicasSpec (settings : IndexSettingsResponse) : Int :=
  (settings.map (fun entry => (scanInt entry.2.Settings.Index.NumberOfReplicas).getD 0)).foldl
    max 0

/-- `fetchMaxReplicaCount`: Go's `(int, error)` return is `Int × Option String`. -/
def fetchMaxReplicaCount (_cfg : CollectorConfig) :
    HttpOutcome IndexSettingsResponse → Int × Option String
  | .reqError => (0, some "failed to create request")
  | .transportError => (0, some "failed to fetch index settings")
  | .response code _body decoded =>
    if code ≠ 200 then (0, some "unexpected status code")
    else
      match decoded with
      | none => (0, some "failed to decode response")
      | some settings => (deriveMaxReplicas settings, none)

/-! ## Collector engine (`Describe`, `Collect`) -/

/-- `time.Since(start).Seconds()`, with nanosecond clock readings. -/
def durationSeconds (startNs endNs : Int) : ℚ :=
  ((endNs - startNs : Int) : ℚ) / 1000000000

/-- Final value of the `scrapeError` local of `Collect`: starts at 0, set to
1 by a health-fetch error, set to 1 by a replica-fetch error. -/
def scrapeErrorValue (healthRes : Except String ClusterHealthResponse)
    (repErr : Option String) : ℚ :=
  match repErr with
  | some _ => 1
  | none => match healthRes with
    | .error _ => 1
    | .ok _ => 0

/-- The HTTP-request event of one fetch (absent when `http.NewRequest` failed). -/
def httpEvents (sent : Bool) (req : HttpRequest) : List ShardEvent :=
  if sent then [ShardEvent.httpGet req] else []

/-- Body of one `Collect` cycle (between lock acquire and release), given the
two fetch results: the health request, the relocation sample on health
success, the settings request, the replica sample on settings success, then
unconditionally the scrape-error and scrape-duration samples. -/
def collectBodyCore (c : ShardCollector) (healthRes : Except String ClusterHealthResponse)
    (rep : Int × Option String) (hSent sSent : Bool) (startNs endNs : Int) :
    List ShardEvent :=
  httpEvents hSent (buildHealthRequest c.config) ++
  (match healthRes with
   | .error _ => []
   | .ok health =>
     [ShardEvent.emit ⟨c.shardRelocationMetric, .gauge, 1,
        [if health.RelocatingShards > 0 then "active" else "inactive"]⟩]) ++
  httpEvents sSent (buildSettingsRequest c.config) ++
  (match rep.2 with
   | some _ => []
   | none => [ShardEvent.emit ⟨c.shardReplicaMetric, .gauge, 1, [toString rep.1]⟩]) ++
  [ShardEvent.emit ⟨c.scrapeErrorMetric, .gauge, scrapeErrorValue healthRes rep.2, []⟩,
   ShardEvent.emit ⟨c.scrapeDurationMetric, .gauge, durationSeconds startNs endNs, []⟩]

def collectBody (c : ShardCollector) (hOut : HttpOutcome ClusterHealthResponse)
    (sOut : HttpOutcome IndexSettingsResponse) (startNs endNs : Int) : List ShardEvent :=
  collectBodyCore c (fetchClusterHealth c.config hOut) (fetchMaxReplicaCount c.config sOut)
    (requestSent hOut) (requestSent sOut) startNs endNs

/-- One full `Collect` cycle: `c.mutex.Lock()`, the body, the deferred
`c.mutex.Unlock()` on every exit path. -/
def collectTrace (c : ShardCollector) (hOut : HttpOutcome ClusterHealthResponse)
    (sOut : HttpOutcome IndexSettingsResponse) (startNs endNs : Int) : List ShardEvent :=
  ShardEvent.acquireLock :: (collectBody c hOut sOut startNs endNs ++ [ShardEvent.releaseLock])

def eventMetric : ShardEvent → Option Metric
  | .emit m => some m
  | _ => none

/-- The metric samples one `Collect` cycle sends on its channel, in order. -/
def collectEmits (c : ShardCollector) (hOut : HttpOutcome ClusterHealthResponse)
    (sOut : HttpOutcome IndexSettingsResponse) (startNs endNs : Int) : List Metric :=
  (collectBody c hOut sOut startNs endNs).filterMap eventMetric

/-- `Describe`: sends the four descriptor fields on the channel and nothing
else; pure in the collector state. -/
def describe (c : ShardCollector) : List ShardEvent × ShardCollector :=
  ([ShardEvent.emitDesc c.shardRelocationMetric, ShardEvent.emitDesc c.shardReplicaMetric,
    ShardEvent.emitDesc c.scrapeErrorMetric, ShardEvent.emitDesc c.scrapeDurationMetric], c)

/-! ## Concurrency model: interleavings of two cycles under the mutex -/

/-- Events of a thread, tagged with its identity. -/
def tagL (t : Bool) (l : List ShardEvent) : List (Bool × ShardEvent) :=
  l.map (fun e => (t, e))

/-- `Interleave xs ys zs`: `zs` is an order-preserving merge of `xs` and `ys`. -/
inductive Interleave : List α → List α → List α → Prop where
  | nil : Interleave [] [] []
  | cons_left {x : α} {xs ys zs} : Interleave xs ys zs → Interleave (x :: xs) ys (x :: zs)
  | cons_right {y : α} {xs ys zs} : Interleave xs ys zs → Interleave xs (y :: ys) (y :: zs)

/-- A tagged global trace respects the mutex: `acquireLock` only when the
lock is free, `releaseLock` only by the holder. -/
def mutexOk (owner : Option Bool) : List (Bool × ShardEvent) → Bool
  | [] => true
  | (t, e) :: rest =>
    match e with
    | .acquireLock => owner == none && mutexOk (some t) rest
    | .releaseLock => owner == some t && mutexOk none rest
    | _ => mutexOk owner rest

/-! ## General lemmas -/

theorem collectEmits_eq (c : ShardCollector) (hOut : HttpOutcome ClusterHealthResponse)
    (sOut : HttpOutcome IndexSettingsResponse) (startNs endNs : Int) :
    collectEmits c hOut sOut startNs endNs =
      (match fetchClusterHealth c.config hOut with
       | .error _ => []
       | .ok health =>
         [⟨c.shardRelocationMetric, .gauge, 1,
           [if health.RelocatingShards > 0 then "active" else "inactive"]⟩]) ++
      (match (fetchMaxReplicaCount c.config sOut).2 with
       | some _ => []
       | none =>
         [⟨c.shardReplicaMetric, .gauge, 1,
           [toString (fetchMaxReplicaCount c.config sOut).1]⟩]) ++
      [⟨c.scrapeErrorMetric, .gauge,
         scrapeErrorValue (fetchClusterHealth c.config hOut)
           (fetchMaxReplicaCount c.config sOut).2, []⟩,
       ⟨c.scrapeDurationMetric, .gauge, durationSeconds startNs endNs, []⟩] := by
  unfold collectEmits collectBody
  cases hh : fetchClusterHealth c.config hOut <;>
    cases hr : (fetchMaxReplicaCount c.config sOut).2 <;>
      cases requestSent hOut <;> cases requestSent sOut <;>
        simp [collectBodyCore, httpEvents, eventMetric, hh, hr]

theorem deriveMaxReplicas_eq_spec (settings : IndexSettingsResponse) :
    deriveMaxReplicas settings = maxReplicasSpec settings := by
  unfold deriveMaxReplicas maxReplicasSpec
  rw [List.foldl_map]
  congr 1
  funext m e
  show (if (scanInt e.2.Settings.Index.NumberOfReplicas).getD 0 > m then
      (scanInt e.2.Settings.Index.NumberOfReplicas).getD 0 else m) =
    max m ((scanInt e.2.Settings.Index.NumberOfReplicas).getD 0)
  split <;> omega

theorem applyAuth_url (cfg : CollectorConfig) (r : HttpRequest) :
    (applyAuth cfg r).url = r.url := by
  unfold applyAuth setBasicAuth
  split <;> rfl

theorem buildHealthRequest_url (cfg : CollectorConfig) :
    (buildHealthRequest cfg).url = cfg.ESURL ++ "/_cluster/health" := by
  simp [buildHealthRequest, applyAuth_url]

theorem buildSettingsRequest_url (cfg : CollectorConfig) :
    (buildSettingsRequest cfg).url = cfg.ESURL ++ "/_settings" := by
  simp [buildSettingsRequest, applyAuth_url]

theorem buildRequests_ne (cfg : CollectorConfig) :
    buildHealthRequest cfg ≠ buildSettingsRequest cfg := by
  intro h
  have h1 : (buildHealthRequest cfg).url = (buildSettingsRequest cfg).url := by rw [h]
  rw [buildHealthRequest_url, buildSettingsRequest_url] at h1
  have h2 := congrArg String.length h1
  have e1 : ("/_cluster/health" : String).length = 16 := rfl
  have e2 : ("/_settings" : String).length = 10 := rfl
  rw [String.length_append, String.length_append, e1, e2] at h2
  omega

theorem durationSeconds_nonneg {a b : Int} (h : a ≤ b) : 0 ≤ durationSeconds a b := by
  unfold durationSeconds
  apply div_nonneg
  · exact_mod_cast sub_nonneg.2 h
  · norm_num

/-- `err != nil` for an `Except`-returned fetch. -/
def fetchFailed : Except String α → Bool
  | .error _ => true
  | .ok _ => false

theorem gaugeFlag_eq_one (p : Prop) [Decidable p] : ((if p then (1 : ℚ) else 0) = 1) ↔ p := by
  split <;> simp_all

theorem gaugeFlag_eq_zero (p : Prop) [Decidable p] : ((if p then (1 : ℚ) else 0) = 0) ↔ ¬p := by
  split <;> simp_all

/-! ## Concrete fixtures for witnesses and counterexamples -/

def cexConfig : CollectorConfig := ⟨"http://localhost:9200", "", "", false, false⟩

def healthWith (reloc : Int) : ClusterHealthResponse :=
  ⟨"test-cluster", "green", false, 3, 3, 10, 20, reloc, 0, 0, 0, 0, 0, 0, 100⟩

def settingsEntry (replicas : String) : IndexSettings := ⟨⟨⟨replicas, "1"⟩⟩⟩

/-! ## Claims -/

/-- C1: for every decoded index-settings map, the replica derivation succeeds
(`fetchMaxReplicaCount` returns a nil error, and — the settings fetch having
succeeded — the scrape-error sample is decided by the health fetch alone) and
returns exactly the spec's value: the maximum over all entries of the integer
parse of `number_of_replicas`, an entry whose string yields no parse
contributing 0 with the running maximum starting at 0, so an empty or
all-malformed map yields 0. -/
theorem fetchMaxReplicaCount_matches_spec (cfg : CollectorConfig) (body : String)
    (m : IndexSettingsResponse) (hOut : HttpOutcome ClusterHealthResponse) (a b : Int) :
    fetchMaxReplicaCount cfg (.response 200 body (some m)) = (maxReplicasSpec m, none) ∧
    maxReplicasSpec [] = 0 ∧
    maxReplicasSpec [("idx", settingsEntry "abc")] = 0 ∧
    (collectEmits (NewShardCollector cfg) hOut (.response 200 body (some m)) a b).filter
        (fun mm => mm.desc == scrapeErrorDesc) =
      [⟨scrapeErrorDesc, .gauge,
        (if fetchFailed (fetchClusterHealth cfg hOut) = true then 1 else 0), []⟩] := by
  refine ⟨?_, by decide, by decide, ?_⟩
  · simp [fetchMaxReplicaCount, deriveMaxReplicas_eq_spec]
  · cases hh : fetchClusterHealth cfg hOut <;>
      simp [collectEmits_eq, NewShardCollector, hh, fetchMaxReplicaCount,
        scrapeErrorValue, fetchFailed, shardRelocationDesc, shardReplicaDesc,
        scrapeErrorDesc, scrapeDurationDesc, buildFQName, namespace']

/-- C2 counterexample: a decodable cluster-health response with
`relocating_shards = -1` is emitted with status label "inactive" although
`relocatingShards ≠ 0`, refuting the claim's `"inactive" iff
relocatingShards = 0`. -/
theorem collect_relocation_negative_cex :
    (healthWith (-1)).RelocatingShards ≠ 0 ∧
    (⟨shardRelocationDesc, .gauge, 1, ["inactive"]⟩ : Metric) ∈
      collectEmits (NewShardCollector cexConfig)
        (.response 200 "" (some (healthWith (-1)))) (.response 200 "" (some [])) 0 0 := by
  decide

/-- C2 (amended): for every successfully fetched cluster-health response,
`Collect` emits exactly one shard-relocation gauge sample, of value 1, whose
status label is "active" if and only if `relocatingShards > 0` and "inactive"
if and only if `relocatingShards ≤ 0`. -/
theorem collect_relocation_label (cfg : CollectorConfig) (body : String)
    (h : ClusterHealthResponse) (sOut : HttpOutcome IndexSettingsResponse) (a b : Int) :
    (collectEmits (NewShardCollector cfg) (.response 200 body (some h)) sOut a b).filter
        (fun mm => mm.desc == shardRelocationDesc) =
      [⟨shardRelocationDesc, .gauge, 1,
        [if h.RelocatingShards > 0 then "active" else "inactive"]⟩] ∧
    ((if h.RelocatingShards > 0 then "active" else "inactive") = "active" ↔
      0 < h.RelocatingShards) ∧
    ((if h.RelocatingShards > 0 then "active" else "inactive") = "inactive" ↔
      h.RelocatingShards ≤ 0) := by
  refine ⟨?_, ?_, ?_⟩
  · cases hr : (fetchMaxReplicaCount cfg sOut).2 <;>
      simp [collectEmits_eq, NewShardCollector, hr, fetchClusterHealth,
        shardRelocationDesc, shardReplicaDesc, scrapeErrorDesc, scrapeDurationDesc,
        buildFQName, namespace']
  · split <;> simp <;> omega
  · split <;> simp <;> omega

/-- C3: in every cycle the scrape-error gauge is emitted exactly once and its
value is 1 if and only if at least one of the two fetches failed, 0 if and
only if both succeeded. -/
theorem collect_scrape_error_iff (cfg : CollectorConfig)
    (hOut : HttpOutcome ClusterHealthResponse) (sOut : HttpOutcome IndexSettingsResponse)
    (a b : Int) :
    (collectEmits (NewShardCollector cfg) hOut sOut a b).filter
        (fun mm => mm.desc == scrapeErrorDesc) =
      [⟨scrapeErrorDesc, .gauge,
        (if fetchFailed (fetchClusterHealth cfg hOut) = true ∨
            (fetchMaxReplicaCount cfg sOut).2.isSome = true then 1 else 0), []⟩] ∧
    ((if fetchFailed (fetchClusterHealth cfg hOut) = true ∨
        (fetchMaxReplicaCount cfg sOut).2.isSome = true then (1 : ℚ) else 0) = 1 ↔
      (fetchFailed (fetchClusterHealth cfg hOut) = true ∨
        (fetchMaxReplicaCount cfg sOut).2.isSome = true)) ∧
    ((if fetchFailed (fetchClusterHealth cfg hOut) = true ∨
        (fetchMaxReplicaCount cfg sOut).2.isSome = true then (1 : ℚ) else 0) = 0 ↔
      (fetchFailed (fetchClusterHealth cfg hOut) = false ∧
        (fetchMaxReplicaCount cfg sOut).2.isSome = false)) := by
  refine ⟨?_, ?_, ?_⟩
  · cases hh : fetchClusterHealth cfg hOut <;>
      cases hr : (fetchMaxReplicaCount cfg sOut).2 <;>
        simp [collectEmits_eq, NewShardCollector, hh, hr, scrapeErrorValue, fetchFailed,
          shardRelocationDesc, shardReplicaDesc, scrapeErrorDesc, scrapeDurationDesc,
          buildFQName, namespace']
  · exact gaugeFlag_eq_one _
  · rw [gaugeFlag_eq_zero]
    simp [not_or]

theorem collectEmits_NSC (cfg : CollectorConfig) (hOut : HttpOutcome ClusterHealthResponse)
    (sOut : HttpOutcome IndexSettingsResponse) (startNs endNs : Int) :
    collectEmits (NewShardCollector cfg) hOut sOut startNs endNs =
      (match fetchClusterHealth cfg hOut with
       | .error _ => []
       | .ok health =>
         [⟨shardRelocationDesc, .gauge, 1,
           [if health.RelocatingShards > 0 then "active" else "inactive"]⟩]) ++
      (match (fetchMaxReplicaCount cfg sOut).2 with
       | some _ => []
       | none =>
         [⟨shardReplicaDesc, .gauge, 1, [toString (fetchMaxReplicaCount cfg sOut).1]⟩]) ++
      [⟨scrapeErrorDesc, .gauge,
         scrapeErrorValue (fetchClusterHealth cfg hOut) (fetchMaxReplicaCount cfg sOut).2, []⟩,
       ⟨scrapeDurationDesc, .gauge, durationSeconds startNs endNs, []⟩] := by
  simpa [NewShardCollector] using
    collectEmits_eq (NewShardCollector cfg) hOut sOut startNs endNs

theorem mem_httpGet_collectTrace (c : ShardCollector) (r : HttpRequest)
    (hOut : HttpOutcome ClusterHealthResponse) (sOut : HttpOutcome IndexSettingsResponse)
    (a b : Int) :
    (ShardEvent.httpGet r ∈ collectTrace c hOut sOut a b) ↔
      ((requestSent hOut = true ∧ r = buildHealthRequest c.config) ∨
        (requestSent sOut = true ∧ r = buildSettingsRequest c.config)) := by
  unfold collectTrace collectBody
  cases hh : fetchClusterHealth c.config hOut <;>
    cases hr : (fetchMaxReplicaCount c.config sOut).2 <;>
      cases hs : requestSent hOut <;> cases hs2 : requestSent sOut <;>
        simp [collectBodyCore, httpEvents, hh, hr, eq_comm]

/-- C4: the two fetches of one cycle are independent. The relocation samples
of a cycle are a function of the health fetch alone (and empty exactly when
it failed), the replica samples are a function of the settings fetch alone
(and empty exactly when it failed), and each request is attempted — sent
whenever it can be constructed — irrespective of the other fetch's
outcome. -/
theorem collect_fetch_independence (cfg : CollectorConfig)
    (hOut : HttpOutcome ClusterHealthResponse) (sOut : HttpOutcome IndexSettingsResponse)
    (a b : Int) :
    (collectEmits (NewShardCollector cfg) hOut sOut a b).filter
        (fun mm => mm.desc == shardRelocationDesc) =
      (match fetchClusterHealth cfg hOut with
       | .error _ => []
       | .ok h => [⟨shardRelocationDesc, .gauge, 1,
           [if h.RelocatingShards > 0 then "active" else "inactive"]⟩]) ∧
    (collectEmits (NewShardCollector cfg) hOut sOut a b).filter
        (fun mm => mm.desc == shardReplicaDesc) =
      (match (fetchMaxReplicaCount cfg sOut).2 with
       | some _ => []
       | none =>
         [⟨shardReplicaDesc, .gauge, 1, [toString (fetchMaxReplicaCount cfg sOut).1]⟩]) ∧
    ((ShardEvent.httpGet (buildHealthRequest cfg) ∈
        collectTrace (NewShardCollector cfg) hOut sOut a b) ↔ requestSent hOut = true) ∧
    ((ShardEvent.httpGet (buildSettingsRequest cfg) ∈
        collectTrace (NewShardCollector cfg) hOut sOut a b) ↔ requestSent sOut = true) := by
  refine ⟨?_, ?_, ?_, ?_⟩
  · cases hh : fetchClusterHealth cfg hOut <;>
      cases hr : (fetchMaxReplicaCount cfg sOut).2 <;>
        simp [collectEmits_NSC, hh, hr, shardRelocationDesc, shardReplicaDesc,
          scrapeErrorDesc, scrapeDurationDesc, buildFQName, namespace']
  · cases hh : fetchClusterHealth cfg hOut <;>
      cases hr : (fetchMaxReplicaCount cfg sOut).2 <;>
        simp [collectEmits_NSC, hh, hr, shardRelocationDesc, shardReplicaDesc,
          scrapeErrorDesc, scrapeDurationDesc, buildFQName, namespace']
  · rw [mem_httpGet_collectTrace]
    constructor
    · rintro (⟨hs, _⟩ | ⟨_, heq⟩)
      · exact hs
      · exact absurd heq (buildRequests_ne cfg)
    · intro hs
      exact Or.inl ⟨hs, rfl⟩
  · rw [mem_httpGet_collectTrace]
    constructor
    · rintro (⟨_, heq⟩ | ⟨hs, _⟩)
      · exact absurd heq.symm (buildRequests_ne cfg)
      · exact hs
    · intro hs
      exact Or.inr ⟨hs, rfl⟩

/-- C5: in every cycle each descriptor yields at most one sample (the emitted
descriptor list has no duplicate); the order of emission is relocation (on
health success), replica (on settings success), scrape-error, scrape-duration
(a sublist of that canonical order, the last two always present); the final
sample is the scrape-duration gauge, whose value is non-negative whenever the
clock readings are monotone. -/
theorem collect_emission_discipline (cfg : CollectorConfig)
    (hOut : HttpOutcome ClusterHealthResponse) (sOut : HttpOutcome IndexSettingsResponse)
    (a b : Int) (hab : a ≤ b) :
    ((collectEmits (NewShardCollector cfg) hOut sOut a b).map Metric.desc).Nodup ∧
    List.Sublist ((collectEmits (NewShardCollector cfg) hOut sOut a b).map Metric.desc)
      [shardRelocationDesc, shardReplicaDesc, scrapeErrorDesc, scrapeDurationDesc] ∧
    scrapeErrorDesc ∈ (collectEmits (NewShardCollector cfg) hOut sOut a b).map Metric.desc ∧
    scrapeDurationDesc ∈ (collectEmits (NewShardCollector cfg) hOut sOut a b).map Metric.desc ∧
    (shardRelocationDesc ∈ (collectEmits (NewShardCollector cfg) hOut sOut a b).map Metric.desc ↔
      fetchFailed (fetchClusterHealth cfg hOut) = false) ∧
    (shardReplicaDesc ∈ (collectEmits (NewShardCollector cfg) hOut sOut a b).map Metric.desc ↔
      (fetchMaxReplicaCount cfg sOut).2 = none) ∧
    (collectEmits (NewShardCollector cfg) hOut sOut a b).getLast? =
      some ⟨scrapeDurationDesc, .gauge, durationSeconds a b, []⟩ ∧
    0 ≤ durationSeconds a b := by
  refine ⟨?_, ?_, ?_, ?_, ?_, ?_, ?_, durationSeconds_nonneg hab⟩ <;>
    cases hh : fetchClusterHealth cfg hOut <;>
      cases hr : (fetchMaxReplicaCount cfg sOut).2 <;>
        simp [collectEmits_NSC, hh, hr, fetchFailed, List.getLast?, shardRelocationDesc,
          shardReplicaDesc, scrapeErrorDesc, scrapeDurationDesc, buildFQName,
          namespace']

/-- C6: `Describe` emits exactly the four fixed descriptors in order —
relocation, replica, scrape-error, scrape-duration — emits nothing else (no
lock operation, no HTTP request, no metric), and returns the collector state
unchanged. -/
theorem describe_fixed_descriptors (cfg : CollectorConfig) :
    describe (NewShardCollector cfg) =
      ([ShardEvent.emitDesc shardRelocationDesc, ShardEvent.emitDesc shardReplicaDesc,
        ShardEvent.emitDesc scrapeErrorDesc, ShardEvent.emitDesc scrapeDurationDesc],
        NewShardCollector cfg) ∧
    (describe (NewShardCollector cfg)).2 = NewShardCollector cfg ∧
    ((describe (NewShardCollector cfg)).1.all
      (fun e => match e with | ShardEvent.emitDesc _ => true | _ => false)) = true := by
  exact ⟨rfl, rfl, rfl⟩

/-- C7: both constructed upstream requests carry the basic-auth header — with
exactly the configured username and password — if and only if both are
non-empty, and carry no auth header if and only if either is empty; the two
requests agree on this. -/
theorem requests_basic_auth (cfg : CollectorConfig) :
    (buildHealthRequest cfg).basicAuth = (buildSettingsRequest cfg).basicAuth ∧
    ((buildHealthRequest cfg).basicAuth = some (cfg.ESUser, cfg.ESPass) ↔
      (cfg.ESUser ≠ "" ∧ cfg.ESPass ≠ "")) ∧
    ((buildHealthRequest cfg).basicAuth = none ↔
      (cfg.ESUser = "" ∨ cfg.ESPass = "")) ∧
    ((buildSettingsRequest cfg).basicAuth = some (cfg.ESUser, cfg.ESPass) ↔
      (cfg.ESUser ≠ "" ∧ cfg.ESPass ≠ "")) := by
  by_cases h1 : cfg.ESUser = "" <;> by_cases h2 : cfg.ESPass = "" <;>
    simp [buildHealthRequest, buildSettingsRequest, applyAuth, setBasicAuth, h1, h2]

/-- C8: two successfully decoded health responses that agree on
`relocatingShards` produce identical emitted samples, whatever their other
fields: no other health field influences any metric. -/
theorem collect_health_noninterference (cfg : CollectorConfig) (b1 b2 : String)
    (h1 h2 : ClusterHealthResponse) (sOut : HttpOutcome IndexSettingsResponse) (a b : Int)
    (hrel : h1.RelocatingShards = h2.RelocatingShards) :
    collectEmits (NewShardCollector cfg) (.response 200 b1 (some h1)) sOut a b =
      collectEmits (NewShardCollector cfg) (.response 200 b2 (some h2)) sOut a b := by
  rw [collectEmits_NSC, collectEmits_NSC]
  simp [fetchClusterHealth, scrapeErrorValue, hrel]

/-- C10: on every error path of `fetchMaxReplicaCount` — construction,
transport, non-200 status, decode — the count component returned alongside
the non-nil error is 0. -/
theorem fetchMaxReplicaCount_zero_on_error (cfg : CollectorConfig)
    (out : HttpOutcome IndexSettingsResponse)
    (herr : (fetchMaxReplicaCount cfg out).2.isSome = true) :
    (fetchMaxReplicaCount cfg out).1 = 0 := by
  rcases out with _ | _ | ⟨code, body, dec⟩
  · rfl
  · rfl
  · by_cases hc : code = 200
    · subst hc
      rcases dec with _ | s
      · rfl
      · simp [fetchMaxReplicaCount] at herr
    · simp [fetchMaxReplicaCount, hc]

/-! ## Serialization of concurrent Collect cycles (C9) -/

theorem tagL_cons (t : Bool) (e : ShardEvent) (l : List ShardEvent) :
    tagL t (e :: l) = (t, e) :: tagL t l := rfl

theorem interleave_nil_left (l : List α) : Interleave ([] : List α) l l := by
  induction l with
  | nil => exact .nil
  | cons x xs ih => exact .cons_right ih

theorem interleave_append (l1 l2 : List α) : Interleave l1 l2 (l1 ++ l2) := by
  induction l1 with
  | nil => simpa using interleave_nil_left l2
  | cons x xs ih => exact .cons_left ih

theorem interleave_swap {xs ys zs : List α} (h : Interleave xs ys zs) :
    Interleave ys xs zs := by
  induction h with
  | nil => exact .nil
  | cons_left h ih => exact .cons_right ih
  | cons_right h ih => exact .cons_left ih

theorem interleave_left_nil_eq {ys zs : List α} (h : Interleave ([] : List α) ys zs) :
    zs = ys := by
  induction zs generalizing ys with
  | nil => cases h; rfl
  | cons z zs ih =>
    cases h with
    | cons_right h' => rw [ih h']

theorem acquire_not_mem_collectBody (c : ShardCollector)
    (hOut : HttpOutcome ClusterHealthResponse) (sOut : HttpOutcome IndexSettingsResponse)
    (a b : Int) : ShardEvent.acquireLock ∉ collectBody c hOut sOut a b := by
  cases hh : fetchClusterHealth c.config hOut <;>
    cases hr : (fetchMaxReplicaCount c.config sOut).2 <;>
      cases hs : requestSent hOut <;> cases hs2 : requestSent sOut <;>
        simp [collectBody, collectBodyCore, httpEvents, hh, hr, hs, hs2]

theorem release_not_mem_collectBody (c : ShardCollector)
    (hOut : HttpOutcome ClusterHealthResponse) (sOut : HttpOutcome IndexSettingsResponse)
    (a b : Int) : ShardEvent.releaseLock ∉ collectBody c hOut sOut a b := by
  cases hh : fetchClusterHealth c.config hOut <;>
    cases hr : (fetchMaxReplicaCount c.config sOut).2 <;>
      cases hs : requestSent hOut <;> cases hs2 : requestSent sOut <;>
        simp [collectBody, collectBodyCore, httpEvents, hh, hr, hs, hs2]

/-- While thread `t` holds the lock and the other thread is still before its
`acquireLock`, a mutex-respecting interleaving runs `t`'s remaining critical
section to its `releaseLock` without interruption, and the other thread's
whole program after it. -/
theorem serialize_aux (t u : Bool) :
    ∀ (xs rest : List ShardEvent) (zs : List (Bool × ShardEvent)),
      ShardEvent.acquireLock ∉ xs → ShardEvent.releaseLock ∉ xs →
      Interleave (tagL t (xs ++ [ShardEvent.releaseLock]))
        (tagL u (ShardEvent.acquireLock :: rest)) zs →
      mutexOk (some t) zs = true →
      zs = tagL t (xs ++ [ShardEvent.releaseLock]) ++
        tagL u (ShardEvent.acquireLock :: rest) := by
  intro xs
  induction xs with
  | nil =>
    intro rest zs _ _ hI hM
    rw [List.nil_append] at hI ⊢
    rw [tagL_cons, tagL_cons] at hI
    cases hI with
    | cons_left h' =>
      have h0 := interleave_left_nil_eq h'
      rw [tagL_cons, h0]
      rfl
    | cons_right h' =>
      simp [mutexOk] at hM
  | cons x xs ih =>
    intro rest zs hna hnr hI hM
    rw [List.cons_append] at hI ⊢
    rw [tagL_cons, tagL_cons] at hI
    have hx1 : x ≠ ShardEvent.acquireLock := fun h => hna (h ▸ List.mem_cons_self x xs)
    have hx2 : x ≠ ShardEvent.releaseLock := fun h => hnr (h ▸ List.mem_cons_self x xs)
    cases hI with
    | cons_left h' =>
      rename_i zs'
      have hM' : mutexOk (some t) zs' = true := by
        cases x with
        | acquireLock => exact absurd rfl hx1
        | releaseLock => exact absurd rfl hx2
        | httpGet r => simpa [mutexOk] using hM
        | emitDesc d => simpa [mutexOk] using hM
        | emit m => simpa [mutexOk] using hM
      have hrec := ih rest zs'
        (fun h => hna (List.mem_cons_of_mem x h))
        (fun h => hnr (List.mem_cons_of_mem x h))
        (by rw [tagL_cons]; exact h') hM'
      rw [tagL_cons, hrec]
      rfl
    | cons_right h' =>
      simp [mutexOk] at hM

/-- C9: concurrent `Collect` cycles never interleave. Each cycle's trace
acquires the exclusive lock as its first action and releases it as its last,
so in any order-preserving merge of two cycles' traces that respects the
mutex, one complete cycle's events precede the other's: the merged trace is
one whole trace followed by the other, never intermixed — the later call
blocks until the in-flight cycle completes. -/
theorem collect_serialized (c1 c2 : ShardCollector)
    (h1 : HttpOutcome ClusterHealthResponse) (s1 : HttpOutcome IndexSettingsResponse)
    (h2 : HttpOutcome ClusterHealthResponse) (s2 : HttpOutcome IndexSettingsResponse)
    (a1 b1 a2 b2 : Int) (zs : List (Bool × ShardEvent))
    (hI : Interleave (tagL true (collectTrace c1 h1 s1 a1 b1))
      (tagL false (collectTrace c2 h2 s2 a2 b2)) zs)
    (hM : mutexOk none zs = true) :
    zs = tagL true (collectTrace c1 h1 s1 a1 b1) ++
        tagL false (collectTrace c2 h2 s2 a2 b2) ∨
    zs = tagL false (collectTrace c2 h2 s2 a2 b2) ++
        tagL true (collectTrace c1 h1 s1 a1 b1) := by
  rw [collectTrace, collectTrace, tagL_cons, tagL_cons] at hI
  cases hI with
  | cons_left h' =>
    rename_i zs'
    have hM' : mutexOk (some true) zs' = true := by simpa [mutexOk] using hM
    have hrec := serialize_aux true false (collectBody c1 h1 s1 a1 b1)
      (collectBody c2 h2 s2 a2 b2 ++ [ShardEvent.releaseLock]) zs'
      (acquire_not_mem_collectBody c1 h1 s1 a1 b1)
      (release_not_mem_collectBody c1 h1 s1 a1 b1) h' hM'
    left
    rw [collectTrace, collectTrace, tagL_cons, tagL_cons, hrec]
    rfl
  | cons_right h' =>
    rename_i zs'
    have hM' : mutexOk (some false) zs' = true := by simpa [mutexOk] using hM
    have hrec := serialize_aux false true (collectBody c2 h2 s2 a2 b2)
      (collectBody c1 h1 s1 a1 b1 ++ [ShardEvent.releaseLock]) zs'
      (acquire_not_mem_collectBody c2 h2 s2 a2 b2)
      (release_not_mem_collectBody c2 h2 s2 a2 b2)
      (by rw [tagL_cons]; exact interleave_swap h') hM'
    right
    rw [collectTrace, collectTrace, tagL_cons, tagL_cons, hrec]
    rfl

/-! ## Witnesses -/

def cexHealthA : ClusterHealthResponse :=
  ⟨"clusterA", "green", false, 1, 1, 1, 1, 2, 1, 1, 1, 1, 1, 5, 50⟩

def cexHealthB : ClusterHealthResponse :=
  ⟨"clusterB", "yellow", true, 9, 8, 7, 6, 2, 5, 4, 3, 2, 1, 99, 75⟩

/-- Witness for C5 at a concrete successful scrape with monotone clock readings. -/
theorem collect_emission_discipline_witness :
    ((collectEmits (NewShardCollector cexConfig) (.response 200 "" (some (healthWith 3)))
        (.response 200 "" (some [("a", settingsEntry "2")])) 0 5).map Metric.desc).Nodup ∧
    List.Sublist ((collectEmits (NewShardCollector cexConfig)
          (.response 200 "" (some (healthWith 3)))
          (.response 200 "" (some [("a", settingsEntry "2")])) 0 5).map Metric.desc)
      [shardRelocationDesc, shardReplicaDesc, scrapeErrorDesc, scrapeDurationDesc] ∧
    scrapeErrorDesc ∈ (collectEmits (NewShardCollector cexConfig)
        (.response 200 "" (some (healthWith 3)))
        (.response 200 "" (some [("a", settingsEntry "2")])) 0 5).map Metric.desc ∧
    scrapeDurationDesc ∈ (collectEmits (NewShardCollector cexConfig)
        (.response 200 "" (some (healthWith 3)))
        (.response 200 "" (some [("a", settingsEntry "2")])) 0 5).map Metric.desc ∧
    (shardRelocationDesc ∈ (collectEmits (NewShardCollector cexConfig)
        (.response 200 "" (some (healthWith 3)))
        (.response 200 "" (some [("a", settingsEntry "2")])) 0 5).map Metric.desc ↔
      fetchFailed (fetchClusterHealth cexConfig
        (.response 200 "" (some (healthWith 3)))) = false) ∧
    (shardReplicaDesc ∈ (collectEmits (NewShardCollector cexConfig)
        (.response 200 "" (some (healthWith 3)))
        (.response 200 "" (some [("a", settingsEntry "2")])) 0 5).map Metric.desc ↔
      (fetchMaxReplicaCount cexConfig
        (.response 200 "" (some [("a", settingsEntry "2")]))).2 = none) ∧
    (collectEmits (NewShardCollector cexConfig) (.response 200 "" (some (healthWith 3)))
        (.response 200 "" (some [("a", settingsEntry "2")])) 0 5).getLast? =
      some ⟨scrapeDurationDesc, .gauge, durationSeconds 0 5, []⟩ ∧
    0 ≤ durationSeconds 0 5 :=
  collect_emission_discipline cexConfig (.response 200 "" (some (healthWith 3)))
    (.response 200 "" (some [("a", settingsEntry "2")])) 0 5 (by decide)

/-- Witness for C8: two responses differing in every field except
`relocatingShards` yield the same emissions. -/
theorem collect_health_noninterference_witness :
    collectEmits (NewShardCollector cexConfig) (.response 200 "bodyA" (some cexHealthA))
        (.response 200 "" (some [])) 0 0 =
      collectEmits (NewShardCollector cexConfig) (.response 200 "bodyB" (some cexHealthB))
        (.response 200 "" (some [])) 0 0 :=
  collect_health_noninterference cexConfig "bodyA" "bodyB" cexHealthA cexHealthB
    (.response 200 "" (some [])) 0 0 rfl

/-- Witness for C9: the sequential merge of two concrete cycles is a
mutex-respecting interleaving, and the theorem pins it to one of the two
serialized orders. -/
theorem collect_serialized_witness :
    tagL true (collectTrace (NewShardCollector cexConfig) .reqError .reqError 0 0) ++
        tagL false (collectTrace (NewShardCollector cexConfig) .reqError .reqError 1 1) =
      tagL true (collectTrace (NewShardCollector cexConfig) .reqError .reqError 0 0) ++
        tagL false (collectTrace (NewShardCollector cexConfig) .reqError .reqError 1 1) ∨
    tagL true (collectTrace (NewShardCollector cexConfig) .reqError .reqError 0 0) ++
        tagL false (collectTrace (NewShardCollector cexConfig) .reqError .reqError 1 1) =
      tagL false (collectTrace (NewShardCollector cexConfig) .reqError .reqError 1 1) ++
        tagL true (collectTrace (NewShardCollector cexConfig) .reqError .reqError 0 0) :=
  collect_serialized (NewShardCollector cexConfig) (NewShardCollector cexConfig)
    .reqError .reqError .reqError .reqError 0 0 1 1 _
    (interleave_append _ _) (by decide)

/-- Witness for C10 at a concrete error path (request construction failure). -/
theorem fetchMaxReplicaCount_zero_on_error_witness :
    (fetchMaxReplicaCount cexConfig HttpOutcome.reqError).2.isSome = true ∧
    (fetchMaxReplicaCount cexConfig HttpOutcome.reqError).1 = 0 :=
  ⟨by decide, fetchMaxReplicaCount_zero_on_error cexConfig HttpOutcome.reqError (by decide)⟩

end ElasticShardExporter
